import Mathlib

/-!
# Verification of the retryable HTTP client (botsandus/retryable)

Shallow embedding of the Go sources `request.go` (the three concatenated parts:
request-body construction, context metadata, and the retrying client),
`error.go`, and the unnamed part holding `NewRequestWithBodyBytes`.

Modelling conventions:

* Go `int` / `int64` / `time.Duration` values are `Int` (durations counted in
  nanoseconds, as in Go; `secondNs` is one second).
* The transport collaborator `h.Do(req)` is an oracle `transport : Nat → DoResult`
  indexed by the number of transport invocations made so far, together with an
  oracle `durs : Nat → Int` giving the wall-clock duration of each invocation.
* The external exponential backoff policy (package `github.com/cenkalti/backoff/v5`,
  a third-party dependency, not part of this repository) is an oracle
  `delays : Nat → Int` giving the successive values of `NextBackOff`; a
  rate-limit wait resets the policy (index back to 0), as the spec and the
  source comment state.
* The driver loop `backoff.Retry` of that third-party library is modelled from
  the spec (section 4.3) and the documented collaborator contract: a nil error
  terminates with success, a `PermanentError` terminates surfacing the error and
  the last response, a `RetryAfterError` waits the server-mandated duration and
  resets the policy, any other error waits the next backoff delay; before
  sleeping, if `MaxElapsedTime` is positive and would be overrun by the sleep,
  the loop stops, surfacing the last error and response.  Recursion is
  fuel-bounded (`none` = fuel ran out, a modelling artifact only).
* The regular expressions `redirectErrorString` and `untrustedCertErrorString`
  are literal strings, so `MatchString` is substring containment.
* The context carrier is `Option requestMetadata`: `none` models a context that
  never had metadata attached, `some md` a context holding the (mutable, by
  explicit state passing) metadata record.
-/

/-- Does the character list `hay` start with the character list `pat`? -/
def startsWithPat : List Char → List Char → Bool
  | _, [] => true
  | [], _ :: _ => false
  | a :: as, b :: bs => a == b && startsWithPat as bs

/-- Is `pat` a contiguous substring of `hay`? -/
def hasSubstring : List Char → List Char → Bool
  | [], pat => startsWithPat [] pat
  | c :: t, pat => startsWithPat (c :: t) pat || hasSubstring t pat

/-- Model of `regexp.MatchString` for the two literal-string patterns of the
source: matching is substring containment. -/
def reMatchString (pattern s : String) : Bool :=
  hasSubstring s.toList pattern.toList

/-- Source: `redirectErrorString = regexp.MustCompile("stopped after 10 redirects")`. -/
def redirectErrorString : String := "stopped after 10 redirects"

/-- Source: `untrustedCertErrorString = regexp.MustCompile("certificate is not trusted")`. -/
def untrustedCertErrorString : String := "certificate is not trusted"

/-- Source: `default429RetrySeconds = 1`. -/
def default429RetrySeconds : Int := 1

/-- One second in nanoseconds (Go `time.Second`). -/
def secondNs : Int := 1000000000

/-- Model of Go `strconv.ParseInt(s, 10, 64)`: an optional sign followed by at
least one ASCII digit, with the value required to fit in a signed 64-bit
integer; `none` models a non-nil parse error. -/
def parseGoInt64 (str : String) : Option Int :=
  match str.toList with
  | [] => none
  | c :: cs =>
    let sd : Bool × List Char :=
      if c == '-' then (true, cs)
      else if c == '+' then (false, cs)
      else (false, c :: cs)
    match sd.2 with
    | [] => none
    | _ :: _ =>
      if sd.2.all (fun d => d.isDigit) then
        let n : Nat := sd.2.foldl (fun acc d => acc * 10 + (d.toNat - 48)) 0
        let v : Int := if sd.1 then -(n : Int) else (n : Int)
        if -(2 ^ 63) ≤ v ∧ v ≤ 2 ^ 63 - 1 then some v else none
      else none

/-- Model of the parts of `http.Response` the client inspects: `StatusCode`,
`Status` (used in error messages), and `Header.Get("Retry-After")` (Go returns
the empty string when the header is absent). -/
structure Response where
  statusCode : Int
  status : String
  retryAfterHeader : String
deriving DecidableEq

/-- Result of one transport invocation `h.Do(req)`: either a non-nil error
with a message, or a response. -/
inductive DoResult
  | failure (msg : String)
  | response (resp : Response)
deriving DecidableEq

/-- Source: `requestMetadata` with fields `requests` and `successfulDuration`. -/
structure requestMetadata where
  requests : Int
  successfulDuration : Int
deriving DecidableEq

/-- Source: the three configuration fields of `HttpClient` (the embedded
`http.Client` is the transport oracle). -/
structure HttpClient where
  MaxRetries : Int
  MaxInterval : Int
  MaxElapsedTime : Int
deriving DecidableEq

/-- Source: `New()` — MaxRetries 9 (for a total of 10 calls, per its comment),
MaxInterval 30s, MaxElapsedTime 0 (unbounded). -/
def New : HttpClient :=
  { MaxRetries := 9, MaxInterval := 30 * secondNs, MaxElapsedTime := 0 }

/-- The error component of the value returned by one call of the `operation`
closure inside `DoWithContext`. -/
inductive OpErr
  | transportErr (msg : String)
  | retryAfterParseErr (raw : String)
  | statusErr (st : String)
  | rateLimited (seconds : Int)
deriving DecidableEq

/-- The `(resp, err)` pair returned by one call of the `operation` closure,
as the backoff driver sees it: nil error (`success`), a `PermanentError`
wrapping `MaxAttemptsReachedError` (`permMaxAttempts`), a `PermanentError`
from `backoff.Permanent` (`permanent`), a `RetryAfterError` from
`backoff.RetryAfter` (`retryAfter`), or a plain retryable error (`plain`).
`permanent` and `plain` carry the response returned alongside the error
(`none` when the Go code returns `nil`). -/
inductive OpOutcome
  | success (resp : Response)
  | permMaxAttempts (c : Int)
  | permanent (e : OpErr) (resp : Option Response)
  | retryAfter (seconds : Int)
  | plain (e : OpErr) (resp : Option Response)
deriving DecidableEq

/-- One call of the `operation` closure of `DoWithContext` (request.go lines
175-237), given the metadata record and the number of transport invocations
made so far.  Returns the updated metadata, the updated invocation count, the
duration consumed by the invocation (0 if the transport was not called), and
the outcome.

The closure first increments `metadata.requests`; the Go guard
`metadata.requests >= h.MaxRetries+1` on the post-increment value is written
here as `h.MaxRetries + 1 ≤ md.requests + 1`.  Note the guard runs before the
transport call, so when it fires the transport is not invoked. -/
def runOperation (h : HttpClient) (transport : Nat → DoResult) (durs : Nat → Int)
    (md : requestMetadata) (calls : Nat) : requestMetadata × Nat × Int × OpOutcome :=
  if h.MaxRetries + 1 ≤ md.requests + 1 then
    ({ md with requests := md.requests + 1 }, calls, 0,
     OpOutcome.permMaxAttempts (h.MaxRetries + 1))
  else
    match transport calls with
    | DoResult.failure msg =>
      if reMatchString redirectErrorString msg || reMatchString untrustedCertErrorString msg then
        ({ md with requests := md.requests + 1 }, calls + 1, durs calls,
         OpOutcome.permanent (OpErr.transportErr msg) none)
      else
        ({ md with requests := md.requests + 1 }, calls + 1, durs calls,
         OpOutcome.plain (OpErr.transportErr msg) none)
    | DoResult.response resp =>
      if resp.statusCode = 429 then
        if resp.retryAfterHeader = "" then
          ({ md with requests := md.requests + 1 }, calls + 1, durs calls,
           OpOutcome.retryAfter default429RetrySeconds)
        else
          match parseGoInt64 resp.retryAfterHeader with
          | none =>
            ({ md with requests := md.requests + 1 }, calls + 1, durs calls,
             OpOutcome.plain (OpErr.retryAfterParseErr resp.retryAfterHeader) none)
          | some s =>
            ({ md with requests := md.requests + 1 }, calls + 1, durs calls,
             OpOutcome.retryAfter s)
      else if Int.tdiv resp.statusCode 100 = 4 then
        ({ md with requests := md.requests + 1 }, calls + 1, durs calls,
         OpOutcome.permanent (OpErr.statusErr resp.status) (some resp))
      else if Int.tdiv resp.statusCode 100 ≠ 2 then
        ({ md with requests := md.requests + 1 }, calls + 1, durs calls,
         OpOutcome.plain (OpErr.statusErr resp.status) (some resp))
      else
        ({ md with requests := md.requests + 1, successfulDuration := durs calls },
         calls + 1, durs calls, OpOutcome.success resp)

/-- Terminal outcome of the whole retry loop as seen by the caller of
`DoWithContext`: success with a response; the attempt budget exhausted
(`MaxAttemptsReachedError`); a permanent failure surfaced with the last
response, if any; or the elapsed-time bound hit, surfacing the last error and
response. -/
inductive RunResult
  | success (resp : Response)
  | attemptsExhausted (c : Int)
  | permFail (resp : Option Response) (e : OpErr)
  | elapsedExceeded (resp : Option Response) (e : OpErr)
deriving DecidableEq

/-- Modelled from the spec: the driver loop of `backoff.Retry` from the
third-party backoff/v5 collaborator (spec section 4.3 and section 6), which is
not part of this repository.  Fuel-bounded; `none` means the fuel ran out. -/
def retryRun (h : HttpClient) (transport : Nat → DoResult) (durs delays : Nat → Int) :
    Nat → requestMetadata → Nat → Nat → Int →
      Option (requestMetadata × Nat × RunResult)
  | 0, _, _, _, _ => none
  | fuel + 1, md, calls, boIdx, elapsed =>
    match runOperation h transport durs md calls with
    | (md1, calls1, _, OpOutcome.success resp) =>
      some (md1, calls1, RunResult.success resp)
    | (md1, calls1, _, OpOutcome.permMaxAttempts c) =>
      some (md1, calls1, RunResult.attemptsExhausted c)
    | (md1, calls1, _, OpOutcome.permanent e rsp) =>
      some (md1, calls1, RunResult.permFail rsp e)
    | (md1, calls1, dur, OpOutcome.retryAfter s) =>
      if 0 < h.MaxElapsedTime ∧ h.MaxElapsedTime < elapsed + dur + s * secondNs then
        some (md1, calls1, RunResult.elapsedExceeded none (OpErr.rateLimited s))
      else
        retryRun h transport durs delays fuel md1 calls1 0 (elapsed + dur + s * secondNs)
    | (md1, calls1, dur, OpOutcome.plain e rsp) =>
      if 0 < h.MaxElapsedTime ∧ h.MaxElapsedTime < elapsed + dur + delays boIdx then
        some (md1, calls1, RunResult.elapsedExceeded rsp e)
      else
        retryRun h transport durs delays fuel md1 calls1 (boIdx + 1) (elapsed + dur + delays boIdx)

/-- Source: `NewContext()` — a context preseeded with a fresh metadata record. -/
def NewContext : Option requestMetadata := some { requests := 0, successfulDuration := 0 }

/-- Source: `getRequestMetadata` — value-and-presence lookup in the carrier. -/
def getRequestMetadata (ctx : Option requestMetadata) : requestMetadata × Bool :=
  match ctx with
  | some md => (md, true)
  | none => ({ requests := 0, successfulDuration := 0 }, false)

/-- Source: `NumberOfAttemptsFromContext`. -/
def NumberOfAttemptsFromContext (ctx : Option requestMetadata) : Int × Bool :=
  match ctx with
  | none => (0, false)
  | some md => (md.requests, true)

/-- Source: `SuccessfulRequestDurationFromContext`. -/
def SuccessfulRequestDurationFromContext (ctx : Option requestMetadata) : Int × Bool :=
  match ctx with
  | none => (0, false)
  | some md => (md.successfulDuration, true)

/-- Metadata resolution at the top of `DoWithContext`: the record from the
carrier, or a throwaway record when the carrier has none. -/
def metadataOf (ctx : Option requestMetadata) : requestMetadata :=
  match ctx with
  | some md => md
  | none => { requests := 0, successfulDuration := 0 }

/-- Unfolding lemma for `metadataOf` on a seeded carrier. -/
theorem metadataOf_some (md : requestMetadata) : metadataOf (some md) = md := rfl

/-- The carrier as observable after the call: an absent record stays absent, a
present one (held by pointer in Go) reflects the final metadata of the run. -/
def carrierAfter (ctx : Option requestMetadata) (md1 : requestMetadata)
    (res : Option (requestMetadata × Nat × RunResult)) : Option requestMetadata :=
  match ctx, res with
  | none, _ => none
  | some _, some (mdF, _, _) => some mdF
  | some _, none => some md1

/-- Source: `DoWithContext` (request.go lines 161-240).  Resolves the metadata
from the carrier (allocating a throwaway record when the carrier has none),
resets its attempt counter to 0, and runs the retry loop.  Returns the carrier
as observable after the call together with the loop result. -/
def DoWithContext (h : HttpClient) (transport : Nat → DoResult) (durs delays : Nat → Int)
    (fuel : Nat) (ctx : Option requestMetadata) :
    Option requestMetadata × Option (requestMetadata × Nat × RunResult) :=
  (carrierAfter ctx
     { requests := 0, successfulDuration := (metadataOf ctx).successfulDuration }
     (retryRun h transport durs delays fuel
       { requests := 0, successfulDuration := (metadataOf ctx).successfulDuration } 0 0 0),
   retryRun h transport durs delays fuel
     { requests := 0, successfulDuration := (metadataOf ctx).successfulDuration } 0 0 0)

/-- Model of a rewindable byte stream: the bytes it holds and a read cursor. -/
structure ByteReader where
  data : List Nat
  pos : Nat
deriving DecidableEq

/-- Reading a `ByteReader` to completion yields the bytes after the cursor. -/
def ByteReader.readAll (r : ByteReader) : List Nat :=
  r.data.drop r.pos

/-- Model of the parts of `http.Request` the constructors populate: method,
target, and the replayable body producer `GetBody` (which in the source never
returns an error, hence always `some`). -/
structure GoRequest where
  Method : String
  URL : String
  GetBody : Unit → Option ByteReader

/-- Source: `NewRequest` (request.go lines 27-47).  `io.Copy` buffers the whole
body (modelled as the byte list the reader would yield); `urlOk` abstracts
whether `http.NewRequest` accepts the method/url pair.  The installed `GetBody`
returns a fresh reader over the buffered bytes, rewound to position 0. -/
def NewRequest (urlOk : Bool) (method url : String) (body : List Nat) : Option GoRequest :=
  let bb := body
  if urlOk then
    some { Method := method, URL := url, GetBody := fun _ => some { data := bb, pos := 0 } }
  else
    none

/-- Source: `NewRequestWithBodyBytes` (unnamed part, lines 11-27). -/
def NewRequestWithBodyBytes (urlOk : Bool) (method url : String) (body : List Nat) :
    Option GoRequest :=
  if urlOk then
    some { Method := method, URL := url, GetBody := fun _ => some { data := body, pos := 0 } }
  else
    none

/-! ## Helper lemmas about single operation calls and single driver steps -/

/-- When the budget guard fires, the transport is not invoked. -/
theorem runOperation_budget (h : HttpClient) (t : Nat → DoResult) (durs : Nat → Int)
    (md : requestMetadata) (calls : Nat) (hb : h.MaxRetries + 1 ≤ md.requests + 1) :
    runOperation h t durs md calls =
      ({ md with requests := md.requests + 1 }, calls, 0,
       OpOutcome.permMaxAttempts (h.MaxRetries + 1)) := by
  unfold runOperation
  rw [if_pos hb]

/-- A transport error matching neither pattern yields a plain retryable error. -/
theorem runOperation_transport_plain (h : HttpClient) (t : Nat → DoResult) (durs : Nat → Int)
    (md : requestMetadata) (calls : Nat) (msg : String)
    (ht : t calls = DoResult.failure msg)
    (hb : ¬ h.MaxRetries + 1 ≤ md.requests + 1)
    (hm : (reMatchString redirectErrorString msg ||
           reMatchString untrustedCertErrorString msg) = false) :
    runOperation h t durs md calls =
      ({ md with requests := md.requests + 1 }, calls + 1, durs calls,
       OpOutcome.plain (OpErr.transportErr msg) none) := by
  unfold runOperation
  rw [if_neg hb, ht]
  simp [hm]

/-- A transport error matching one of the two patterns yields a permanent error. -/
theorem runOperation_transport_permanent (h : HttpClient) (t : Nat → DoResult) (durs : Nat → Int)
    (md : requestMetadata) (calls : Nat) (msg : String)
    (ht : t calls = DoResult.failure msg)
    (hb : ¬ h.MaxRetries + 1 ≤ md.requests + 1)
    (hm : (reMatchString redirectErrorString msg ||
           reMatchString untrustedCertErrorString msg) = true) :
    runOperation h t durs md calls =
      ({ md with requests := md.requests + 1 }, calls + 1, durs calls,
       OpOutcome.permanent (OpErr.transportErr msg) none) := by
  unfold runOperation
  rw [if_neg hb, ht]
  simp [hm]

/-- A 429 without a Retry-After header yields the default rate-limit wait. -/
theorem runOperation_429_default (h : HttpClient) (t : Nat → DoResult) (durs : Nat → Int)
    (md : requestMetadata) (calls : Nat) (resp : Response)
    (ht : t calls = DoResult.response resp)
    (hb : ¬ h.MaxRetries + 1 ≤ md.requests + 1)
    (h429 : resp.statusCode = 429) (hra : resp.retryAfterHeader = "") :
    runOperation h t durs md calls =
      ({ md with requests := md.requests + 1 }, calls + 1, durs calls,
       OpOutcome.retryAfter default429RetrySeconds) := by
  unfold runOperation
  rw [if_neg hb, ht]
  simp [h429, hra]

/-- A 429 with a parseable Retry-After header yields that rate-limit wait. -/
theorem runOperation_429_parsed (h : HttpClient) (t : Nat → DoResult) (durs : Nat → Int)
    (md : requestMetadata) (calls : Nat) (resp : Response) (s : Int)
    (ht : t calls = DoResult.response resp)
    (hb : ¬ h.MaxRetries + 1 ≤ md.requests + 1)
    (h429 : resp.statusCode = 429) (hra : resp.retryAfterHeader ≠ "")
    (hp : parseGoInt64 resp.retryAfterHeader = some s) :
    runOperation h t durs md calls =
      ({ md with requests := md.requests + 1 }, calls + 1, durs calls,
       OpOutcome.retryAfter s) := by
  unfold runOperation
  rw [if_neg hb, ht]
  simp [h429, hra, hp]

/-- A 429 with an unparseable Retry-After header yields a plain retryable
error carrying the parse failure (the source returns the strconv error
without wrapping it in backoff.Permanent). -/
theorem runOperation_429_malformed (h : HttpClient) (t : Nat → DoResult) (durs : Nat → Int)
    (md : requestMetadata) (calls : Nat) (resp : Response)
    (ht : t calls = DoResult.response resp)
    (hb : ¬ h.MaxRetries + 1 ≤ md.requests + 1)
    (h429 : resp.statusCode = 429) (hra : resp.retryAfterHeader ≠ "")
    (hp : parseGoInt64 resp.retryAfterHeader = none) :
    runOperation h t durs md calls =
      ({ md with requests := md.requests + 1 }, calls + 1, durs calls,
       OpOutcome.plain (OpErr.retryAfterParseErr resp.retryAfterHeader) none) := by
  unfold runOperation
  rw [if_neg hb, ht]
  simp [h429, hra, hp]

/-- A non-429 response with status in the 4xx division class yields a
permanent error carrying the response. -/
theorem runOperation_4xx (h : HttpClient) (t : Nat → DoResult) (durs : Nat → Int)
    (md : requestMetadata) (calls : Nat) (resp : Response)
    (ht : t calls = DoResult.response resp)
    (hb : ¬ h.MaxRetries + 1 ≤ md.requests + 1)
    (h429 : resp.statusCode ≠ 429) (hdiv : Int.tdiv resp.statusCode 100 = 4) :
    runOperation h t durs md calls =
      ({ md with requests := md.requests + 1 }, calls + 1, durs calls,
       OpOutcome.permanent (OpErr.statusErr resp.status) (some resp)) := by
  unfold runOperation
  rw [if_neg hb, ht]
  simp [h429, hdiv]

/-- Any other non-2xx response yields a plain retryable error carrying the
response. -/
theorem runOperation_other_non2xx (h : HttpClient) (t : Nat → DoResult) (durs : Nat → Int)
    (md : requestMetadata) (calls : Nat) (resp : Response)
    (ht : t calls = DoResult.response resp)
    (hb : ¬ h.MaxRetries + 1 ≤ md.requests + 1)
    (h429 : resp.statusCode ≠ 429) (hdiv4 : Int.tdiv resp.statusCode 100 ≠ 4)
    (hdiv2 : Int.tdiv resp.statusCode 100 ≠ 2) :
    runOperation h t durs md calls =
      ({ md with requests := md.requests + 1 }, calls + 1, durs calls,
       OpOutcome.plain (OpErr.statusErr resp.status) (some resp)) := by
  unfold runOperation
  rw [if_neg hb, ht]
  simp [h429, hdiv4, hdiv2]

/-- A 2xx response succeeds and records the duration of this attempt. -/
theorem runOperation_2xx (h : HttpClient) (t : Nat → DoResult) (durs : Nat → Int)
    (md : requestMetadata) (calls : Nat) (resp : Response)
    (ht : t calls = DoResult.response resp)
    (hb : ¬ h.MaxRetries + 1 ≤ md.requests + 1)
    (h429 : resp.statusCode ≠ 429) (hdiv4 : Int.tdiv resp.statusCode 100 ≠ 4)
    (hdiv2 : Int.tdiv resp.statusCode 100 = 2) :
    runOperation h t durs md calls =
      ({ md with requests := md.requests + 1, successfulDuration := durs calls },
       calls + 1, durs calls, OpOutcome.success resp) := by
  unfold runOperation
  rw [if_neg hb, ht]
  simp [h429, hdiv4, hdiv2]

/-- Truncated division of nonnegative integers agrees with `Nat` division. -/
theorem int_tdiv_ofNat_100 (n : Nat) : Int.tdiv (n : Int) 100 = ((n / 100 : Nat) : Int) := rfl

/-- Driver step: a successful operation terminates the loop. -/
theorem retryRun_step_success (h : HttpClient) (t : Nat → DoResult) (durs delays : Nat → Int)
    (f : Nat) (md : requestMetadata) (calls boIdx : Nat) (elapsed : Int)
    (md1 : requestMetadata) (calls1 : Nat) (dur : Int) (resp : Response)
    (hop : runOperation h t durs md calls = (md1, calls1, dur, OpOutcome.success resp)) :
    retryRun h t durs delays (f + 1) md calls boIdx elapsed =
      some (md1, calls1, RunResult.success resp) := by
  simp only [retryRun, hop]

/-- Driver step: the budget-exhausted permanent error terminates the loop. -/
theorem retryRun_step_maxAttempts (h : HttpClient) (t : Nat → DoResult) (durs delays : Nat → Int)
    (f : Nat) (md : requestMetadata) (calls boIdx : Nat) (elapsed : Int)
    (md1 : requestMetadata) (calls1 : Nat) (dur c : Int)
    (hop : runOperation h t durs md calls = (md1, calls1, dur, OpOutcome.permMaxAttempts c)) :
    retryRun h t durs delays (f + 1) md calls boIdx elapsed =
      some (md1, calls1, RunResult.attemptsExhausted c) := by
  simp only [retryRun, hop]

/-- Driver step: a permanent error terminates the loop, surfacing the last
response. -/
theorem retryRun_step_permanent (h : HttpClient) (t : Nat → DoResult) (durs delays : Nat → Int)
    (f : Nat) (md : requestMetadata) (calls boIdx : Nat) (elapsed : Int)
    (md1 : requestMetadata) (calls1 : Nat) (dur : Int) (e : OpErr) (rsp : Option Response)
    (hop : runOperation h t durs md calls = (md1, calls1, dur, OpOutcome.permanent e rsp)) :
    retryRun h t durs delays (f + 1) md calls boIdx elapsed =
      some (md1, calls1, RunResult.permFail rsp e) := by
  simp only [retryRun, hop]

/-- Driver step: a plain error retries when the elapsed-time bound is not hit. -/
theorem retryRun_step_plain_continue (h : HttpClient) (t : Nat → DoResult)
    (durs delays : Nat → Int) (f : Nat) (md : requestMetadata) (calls boIdx : Nat)
    (elapsed : Int) (md1 : requestMetadata) (calls1 : Nat) (dur : Int) (e : OpErr)
    (rsp : Option Response)
    (hop : runOperation h t durs md calls = (md1, calls1, dur, OpOutcome.plain e rsp))
    (hme : ¬ (0 < h.MaxElapsedTime ∧ h.MaxElapsedTime < elapsed + dur + delays boIdx)) :
    retryRun h t durs delays (f + 1) md calls boIdx elapsed =
      retryRun h t durs delays f md1 calls1 (boIdx + 1) (elapsed + dur + delays boIdx) := by
  simp only [retryRun, hop]
  rw [if_neg hme]

/-- Driver step: a plain error stops with the elapsed-time bound when the next
sleep would overrun it, surfacing the last error and response. -/
theorem retryRun_step_plain_stop (h : HttpClient) (t : Nat → DoResult)
    (durs delays : Nat → Int) (f : Nat) (md : requestMetadata) (calls boIdx : Nat)
    (elapsed : Int) (md1 : requestMetadata) (calls1 : Nat) (dur : Int) (e : OpErr)
    (rsp : Option Response)
    (hop : runOperation h t durs md calls = (md1, calls1, dur, OpOutcome.plain e rsp))
    (hme : 0 < h.MaxElapsedTime ∧ h.MaxElapsedTime < elapsed + dur + delays boIdx) :
    retryRun h t durs delays (f + 1) md calls boIdx elapsed =
      some (md1, calls1, RunResult.elapsedExceeded rsp e) := by
  simp only [retryRun, hop]
  rw [if_pos hme]

/-- Every run of the retry loop against a transport whose every result
classifies as a plain retryable error, with the elapsed-time bound disabled,
ends with the attempt budget exhausted: the counter reaches exactly
`MaxRetries + 1` and the transport is invoked once per loop iteration except
the last. -/
theorem run_const_plain (h : HttpClient) (t : Nat → DoResult) (durs delays : Nat → Int)
    (e : Nat → OpErr) (rsp : Nat → Option Response)
    (hME : ¬ 0 < h.MaxElapsedTime)
    (hstep : ∀ (md : requestMetadata) (calls : Nat),
      ¬ h.MaxRetries + 1 ≤ md.requests + 1 →
      runOperation h t durs md calls =
        ({ md with requests := md.requests + 1 }, calls + 1, durs calls,
         OpOutcome.plain (e calls) (rsp calls))) :
    ∀ (n f : Nat) (md : requestMetadata) (calls boIdx : Nat) (elapsed : Int),
      1 ≤ n → md.requests + (n : Int) = h.MaxRetries + 1 → n ≤ f →
      retryRun h t durs delays f md calls boIdx elapsed =
        some ({ md with requests := h.MaxRetries + 1 }, calls + (n - 1),
              RunResult.attemptsExhausted (h.MaxRetries + 1)) := by
  intro n
  induction n with
  | zero => intro f md calls boIdx elapsed h1; omega
  | succ m ih =>
    intro f md calls boIdx elapsed _ hcount hf
    match m, f with
    | 0, f + 1 =>
      have hb : h.MaxRetries + 1 ≤ md.requests + 1 := by push_cast at hcount; omega
      rw [retryRun_step_maxAttempts h t durs delays f md calls boIdx elapsed _ calls 0 _
        (runOperation_budget h t durs md calls hb)]
      have hreq : md.requests + 1 = h.MaxRetries + 1 := by push_cast at hcount; omega
      rw [show ({ md with requests := md.requests + 1 } : requestMetadata) =
          { md with requests := h.MaxRetries + 1 } by rw [hreq]]
      norm_num
    | m + 1, f + 1 =>
      have hb : ¬ h.MaxRetries + 1 ≤ md.requests + 1 := by push_cast at hcount; omega
      rw [retryRun_step_plain_continue h t durs delays f md calls boIdx elapsed _ _ _ _ _
        (hstep md calls hb) (by intro hc; exact hME hc.1)]
      rw [ih f { md with requests := md.requests + 1 } (calls + 1) (boIdx + 1)
        (elapsed + durs calls + delays boIdx) (by omega)
        (by push_cast at hcount ⊢; omega) (by omega)]
      have harith : calls + 1 + (m + 1 - 1) = calls + (m + 1 + 1 - 1) := by omega
      rw [harith]

/-- One operation call never changes `successfulDuration` unless it succeeds. -/
theorem runOperation_nonsuccess_duration (h : HttpClient) (t : Nat → DoResult)
    (durs : Nat → Int) (md : requestMetadata) (calls : Nat) :
    (runOperation h t durs md calls).1.successfulDuration = md.successfulDuration ∨
    ∃ resp, (runOperation h t durs md calls).2.2.2 = OpOutcome.success resp := by
  unfold runOperation
  split
  · left; rfl
  · split
    · split
      · left; rfl
      · left; rfl
    · split
      · split
        · left; rfl
        · split
          · left; rfl
          · left; rfl
      · split
        · left; rfl
        · split
          · left; rfl
          · right; exact ⟨_, rfl⟩

/-- Any run of the retry loop that does not end in success leaves
`successfulDuration` exactly as it found it. -/
theorem retryRun_nonsuccess_duration (h : HttpClient) (t : Nat → DoResult)
    (durs delays : Nat → Int) :
    ∀ (f : Nat) (md : requestMetadata) (calls boIdx : Nat) (elapsed : Int)
      (mdF : requestMetadata) (callsF : Nat) (res : RunResult),
      retryRun h t durs delays f md calls boIdx elapsed = some (mdF, callsF, res) →
      (∀ resp, res ≠ RunResult.success resp) →
      mdF.successfulDuration = md.successfulDuration := by
  intro f
  induction f with
  | zero => intro md calls boIdx elapsed mdF callsF res hrun; simp [retryRun] at hrun
  | succ f ih =>
    intro md calls boIdx elapsed mdF callsF res hrun hns
    have hdur := runOperation_nonsuccess_duration h t durs md calls
    rcases hop : runOperation h t durs md calls with ⟨md1, calls1, dur, out⟩
    rw [hop] at hdur
    cases out with
    | success resp =>
      rw [retryRun_step_success h t durs delays f md calls boIdx elapsed _ _ _ _ hop] at hrun
      injection hrun with h2
      injection h2 with hmd h3
      injection h3 with hcalls hres
      exact absurd hres.symm (hns resp)
    | permMaxAttempts c =>
      rw [retryRun_step_maxAttempts h t durs delays f md calls boIdx elapsed _ _ _ _ hop] at hrun
      injection hrun with h2
      injection h2 with hmd h3
      rcases hdur with hd | ⟨resp, hresp⟩
      · rw [← hmd]; exact hd
      · cases hresp
    | permanent e rsp =>
      rw [retryRun_step_permanent h t durs delays f md calls boIdx elapsed _ _ _ _ _ hop] at hrun
      injection hrun with h2
      injection h2 with hmd h3
      rcases hdur with hd | ⟨resp, hresp⟩
      · rw [← hmd]; exact hd
      · cases hresp
    | retryAfter s =>
      rcases hdur with hd | ⟨resp, hresp⟩
      · by_cases hme : 0 < h.MaxElapsedTime ∧ h.MaxElapsedTime < elapsed + dur + s * secondNs
        · simp only [retryRun, hop] at hrun
          rw [if_pos hme] at hrun
          injection hrun with h2
          injection h2 with hmd h3
          rw [← hmd]; exact hd
        · simp only [retryRun, hop] at hrun
          rw [if_neg hme] at hrun
          have := ih md1 calls1 0 (elapsed + dur + s * secondNs) mdF callsF res hrun hns
          rw [this, hd]
      · cases hresp
    | plain e rsp =>
      rcases hdur with hd | ⟨resp, hresp⟩
      · by_cases hme : 0 < h.MaxElapsedTime ∧ h.MaxElapsedTime < elapsed + dur + delays boIdx
        · rw [retryRun_step_plain_stop h t durs delays f md calls boIdx elapsed _ _ _ _ _
            hop hme] at hrun
          injection hrun with h2
          injection h2 with hmd h3
          rw [← hmd]; exact hd
        · rw [retryRun_step_plain_continue h t durs delays f md calls boIdx elapsed _ _ _ _ _
            hop hme] at hrun
          have := ih md1 calls1 (boIdx + 1) (elapsed + dur + delays boIdx) mdF callsF res hrun hns
          rw [this, hd]
      · cases hresp

/-! ## Claim theorems -/

/-- C1: evaluation of the code at the failing input.  With the default
configuration (MaxRetries = 9) and a transport failing every invocation with a
transient error, the code increments the attempt counter to 10, the loop stops
as soon as the counter equals MaxRetries + 1 (the guard is a greater-or-equal
comparison, so the tenth loop iteration performs no transport call), only 9
transport invocations happen, and MaxAttemptsReached(10) is returned.  The
claim (exactly r + 1 = 10 attempts, stop only once the counter exceeds
MaxRetries + 1) describes the intent documented in the source comments, which
the code misses by one. -/
theorem C1_code_behavior :
    retryRun New (fun _ => DoResult.failure "connection reset") (fun _ => 0) (fun _ => 0) 11
      { requests := 0, successfulDuration := 0 } 0 0 0 =
      some ({ requests := 10, successfulDuration := 0 }, 9, RunResult.attemptsExhausted 10) := by
  decide

/-- C2: evaluation of the code at the failing input.  With MaxRetries = 0 and
MaxElapsedTime = 1s against an always-500 transport, the very first operation
call trips the budget guard: the counter becomes 1, zero transport invocations
happen, and MaxAttemptsReached(1) is returned immediately — attempt #1 never
runs and the elapsed-time bound is never consulted, contradicting the claim and
the tests of the repository. -/
theorem C2_code_behavior :
    retryRun { MaxRetries := 0, MaxInterval := 30 * secondNs, MaxElapsedTime := secondNs }
      (fun _ => DoResult.response
        { statusCode := 500, status := "500 Internal Server Error", retryAfterHeader := "" })
      (fun _ => 0) (fun _ => 0) 5 { requests := 0, successfulDuration := 0 } 0 0 0 =
      some ({ requests := 1, successfulDuration := 0 }, 0, RunResult.attemptsExhausted 1) := by
  decide

/-- C5: evaluation of the code.  A redirect-loop or untrusted-certificate
transport error ends the call as a permanent failure after exactly 1 transport
invocation when MaxRetries = 9 (first and second conjuncts), and any other
transport error is retried (third conjunct, MaxRetries = 2: two invocations
happen before the budget ends the call).  But with MaxRetries = 0 the same
redirect-loop error produces zero transport invocations and a
MaxAttemptsReached(1) error instead of the permanent redirect failure (fourth
conjunct), contradicting the claim for that configuration (same off-by-one as
C1/C2). -/
theorem C5_code_behavior :
    (retryRun New (fun _ => DoResult.failure "Get /a: stopped after 10 redirects")
      (fun _ => 0) (fun _ => 0) 3 { requests := 0, successfulDuration := 0 } 0 0 0 =
      some ({ requests := 1, successfulDuration := 0 }, 1,
        RunResult.permFail none (OpErr.transportErr "Get /a: stopped after 10 redirects"))) ∧
    (retryRun New (fun _ => DoResult.failure "x509: certificate is not trusted")
      (fun _ => 0) (fun _ => 0) 3 { requests := 0, successfulDuration := 0 } 0 0 0 =
      some ({ requests := 1, successfulDuration := 0 }, 1,
        RunResult.permFail none (OpErr.transportErr "x509: certificate is not trusted"))) ∧
    (retryRun { MaxRetries := 2, MaxInterval := 30 * secondNs, MaxElapsedTime := 0 }
      (fun _ => DoResult.failure "connection reset")
      (fun _ => 0) (fun _ => 0) 5 { requests := 0, successfulDuration := 0 } 0 0 0 =
      some ({ requests := 3, successfulDuration := 0 }, 2, RunResult.attemptsExhausted 3)) ∧
    (retryRun { MaxRetries := 0, MaxInterval := 30 * secondNs, MaxElapsedTime := 0 }
      (fun _ => DoResult.failure "Get /a: stopped after 10 redirects")
      (fun _ => 0) (fun _ => 0) 3 { requests := 0, successfulDuration := 0 } 0 0 0 =
      some ({ requests := 1, successfulDuration := 0 }, 0, RunResult.attemptsExhausted 1)) := by
  exact ⟨by decide, by decide, by decide, by decide⟩

/-- C3 counterexample: with MaxRetries = 2 and a transport always answering 429
with the unparseable Retry-After value "1.5", the run does NOT stop after one
attempt surfacing the parse failure: two transport invocations happen (second
conjunct: the invocation count of the run is not 1) and the terminal error is
MaxAttemptsReached(3), not the parse error (first conjunct). -/
theorem C3_counterexample :
    (retryRun { MaxRetries := 2, MaxInterval := 30 * secondNs, MaxElapsedTime := 0 }
      (fun _ => DoResult.response
        { statusCode := 429, status := "429 Too Many Requests", retryAfterHeader := "1.5" })
      (fun _ => 0) (fun _ => 0) 5 { requests := 0, successfulDuration := 0 } 0 0 0 =
      some ({ requests := 3, successfulDuration := 0 }, 2, RunResult.attemptsExhausted 3)) ∧
    (retryRun { MaxRetries := 2, MaxInterval := 30 * secondNs, MaxElapsedTime := 0 }
      (fun _ => DoResult.response
        { statusCode := 429, status := "429 Too Many Requests", retryAfterHeader := "1.5" })
      (fun _ => 0) (fun _ => 0) 5 { requests := 0, successfulDuration := 0 } 0 0 0).map
        (fun p => p.2.1) ≠ some 1 := by
  exact ⟨by decide, by decide⟩

/-- C3 (amended): a 429 response whose Retry-After value is present but not
parseable as an integer yields a plain (non-permanent) error for that attempt,
which the retry driver treats like any transient failure: the malformed value
is retried, and against a transport that always answers this way the loop only
ends when the attempt budget is exhausted (with a MaxAttemptsReached error, not
the parse failure), after MaxRetries transport invocations. -/
theorem C3_retried_not_surfaced (r : Nat) (mi : Int) (st ra : String)
    (durs delays : Nat → Int) (s0 : Int) (f : Nat)
    (hra : ra ≠ "") (hp : parseGoInt64 ra = none) :
    retryRun { MaxRetries := (r : Int) + 2, MaxInterval := mi, MaxElapsedTime := 0 }
      (fun _ => DoResult.response { statusCode := 429, status := st, retryAfterHeader := ra })
      durs delays (f + (r + 3)) { requests := 0, successfulDuration := s0 } 0 0 0 =
      some ({ requests := (r : Int) + 3, successfulDuration := s0 }, r + 2,
            RunResult.attemptsExhausted ((r : Int) + 3)) := by
  have key := run_const_plain
    { MaxRetries := (r : Int) + 2, MaxInterval := mi, MaxElapsedTime := 0 }
    (fun _ => DoResult.response { statusCode := 429, status := st, retryAfterHeader := ra })
    durs delays (fun _ => OpErr.retryAfterParseErr ra) (fun _ => none)
    (fun hc => absurd hc (lt_irrefl 0))
    (fun md calls hb => runOperation_429_malformed _ _ durs md calls _ rfl hb rfl hra hp)
    (r + 3) (f + (r + 3)) { requests := 0, successfulDuration := s0 } 0 0 0
    (by omega) (by push_cast; ring) (by omega)
  have h1 : ((r : Int) + 2) + 1 = (r : Int) + 3 := by ring
  rw [h1] at key
  have h2 : 0 + (r + 3 - 1) = r + 2 := by omega
  rw [h2] at key
  exact key

/-- C3 witness: the amended theorem applied at r = 1 with the malformed
Retry-After value "1.5". -/
theorem C3_retried_not_surfaced_witness :
    ("1.5" ≠ "" ∧ parseGoInt64 "1.5" = none) ∧
    retryRun { MaxRetries := 3, MaxInterval := 0, MaxElapsedTime := 0 }
      (fun _ => DoResult.response
        { statusCode := 429, status := "429 Too Many Requests", retryAfterHeader := "1.5" })
      (fun _ => 0) (fun _ => 0) 4 { requests := 0, successfulDuration := 0 } 0 0 0 =
      some ({ requests := 4, successfulDuration := 0 }, 3, RunResult.attemptsExhausted 4) :=
  ⟨⟨by decide, by decide⟩,
   C3_retried_not_surfaced 1 0 "429 Too Many Requests" "1.5" (fun _ => 0) (fun _ => 0) 0 0
     (by decide) (by decide)⟩

/-- C4: outcome classification by status code.  First conjunct, for any attempt
whose transport result is a response and whose budget guard does not fire:
a 429 is classified rate-limited with the default hint of 1 second when the
Retry-After header is absent and with the parsed hint when it parses; a status
in [400, 500) other than 429 is a permanent failure; any other non-2xx status
is a plain (transient, retried) failure; a 2xx status succeeds.  Second
conjunct: a 404 ends the run as a permanent failure after exactly 1 transport
invocation (MaxRetries at least 1).  Third conjunct: an always-500 transport is
retried until the budget is exhausted. -/
theorem C4_outcome_classification :
    (∀ (h : HttpClient) (t : Nat → DoResult) (durs : Nat → Int) (md : requestMetadata)
       (calls : Nat) (resp : Response),
       t calls = DoResult.response resp →
       ¬ h.MaxRetries + 1 ≤ md.requests + 1 →
       ((resp.statusCode = 429 → resp.retryAfterHeader = "" →
           (runOperation h t durs md calls).2.2.2 = OpOutcome.retryAfter 1) ∧
        (∀ s : Int, resp.statusCode = 429 → resp.retryAfterHeader ≠ "" →
           parseGoInt64 resp.retryAfterHeader = some s →
           (runOperation h t durs md calls).2.2.2 = OpOutcome.retryAfter s) ∧
        (400 ≤ resp.statusCode → resp.statusCode < 500 → resp.statusCode ≠ 429 →
           (runOperation h t durs md calls).2.2.2 =
             OpOutcome.permanent (OpErr.statusErr resp.status) (some resp)) ∧
        (resp.statusCode ≠ 429 → Int.tdiv resp.statusCode 100 ≠ 4 →
           Int.tdiv resp.statusCode 100 ≠ 2 →
           (runOperation h t durs md calls).2.2.2 =
             OpOutcome.plain (OpErr.statusErr resp.status) (some resp)) ∧
        (200 ≤ resp.statusCode → resp.statusCode < 300 →
           (runOperation h t durs md calls).2.2.2 = OpOutcome.success resp))) ∧
    (∀ (r : Nat) (mi : Int) (st hd : String) (durs delays : Nat → Int) (s0 : Int) (f : Nat),
       retryRun { MaxRetries := (r : Int) + 1, MaxInterval := mi, MaxElapsedTime := 0 }
         (fun _ => DoResult.response { statusCode := 404, status := st, retryAfterHeader := hd })
         durs delays (f + 1) { requests := 0, successfulDuration := s0 } 0 0 0 =
         some ({ requests := 1, successfulDuration := s0 }, 1,
           RunResult.permFail
             (some { statusCode := 404, status := st, retryAfterHeader := hd })
             (OpErr.statusErr st))) ∧
    (∀ (r : Nat) (mi : Int) (st hd : String) (durs delays : Nat → Int) (s0 : Int) (f : Nat),
       retryRun { MaxRetries := (r : Int) + 2, MaxInterval := mi, MaxElapsedTime := 0 }
         (fun _ => DoResult.response { statusCode := 500, status := st, retryAfterHeader := hd })
         durs delays (f + (r + 3)) { requests := 0, successfulDuration := s0 } 0 0 0 =
         some ({ requests := (r : Int) + 3, successfulDuration := s0 }, r + 2,
           RunResult.attemptsExhausted ((r : Int) + 3))) := by
  refine ⟨?_, ?_, ?_⟩
  · intro h t durs md calls resp ht hb
    refine ⟨?_, ?_, ?_, ?_, ?_⟩
    · intro h429 hra
      rw [runOperation_429_default h t durs md calls resp ht hb h429 hra]
      rfl
    · intro s h429 hra hp
      rw [runOperation_429_parsed h t durs md calls resp s ht hb h429 hra hp]
    · intro h4a h4b h429
      have hnn : 0 ≤ resp.statusCode := by omega
      have hn : resp.statusCode = ((resp.statusCode.toNat : Nat) : Int) :=
        (Int.toNat_of_nonneg hnn).symm
      have hdiv : Int.tdiv resp.statusCode 100 = 4 := by
        rw [hn, int_tdiv_ofNat_100]
        omega
      rw [runOperation_4xx h t durs md calls resp ht hb h429 hdiv]
    · intro h429 hdiv4 hdiv2
      rw [runOperation_other_non2xx h t durs md calls resp ht hb h429 hdiv4 hdiv2]
    · intro h2a h2b
      have h429 : resp.statusCode ≠ 429 := by omega
      have hnn : 0 ≤ resp.statusCode := by omega
      have hn : resp.statusCode = ((resp.statusCode.toNat : Nat) : Int) :=
        (Int.toNat_of_nonneg hnn).symm
      have hdiv2 : Int.tdiv resp.statusCode 100 = 2 := by
        rw [hn, int_tdiv_ofNat_100]
        omega
      have hdiv4 : Int.tdiv resp.statusCode 100 ≠ 4 := by
        rw [hdiv2]; decide
      rw [runOperation_2xx h t durs md calls resp ht hb h429 hdiv4 hdiv2]
  · intro r mi st hd durs delays s0 f
    have hop : runOperation { MaxRetries := (r : Int) + 1, MaxInterval := mi, MaxElapsedTime := 0 }
        (fun _ => DoResult.response { statusCode := 404, status := st, retryAfterHeader := hd })
        durs { requests := 0, successfulDuration := s0 } 0 =
        ({ requests := 1, successfulDuration := s0 }, 1, durs 0,
         OpOutcome.permanent (OpErr.statusErr st)
           (some { statusCode := 404, status := st, retryAfterHeader := hd })) :=
      runOperation_4xx _ _ durs _ 0 { statusCode := 404, status := st, retryAfterHeader := hd }
        rfl (by show ¬ ((r : Int) + 1 + 1 ≤ 0 + 1); omega)
        (by show (404 : Int) ≠ 429; decide) (by show Int.tdiv 404 100 = 4; decide)
    rw [retryRun_step_permanent _ _ durs delays f _ 0 0 0 _ 1 (durs 0) _ _ hop]
  · intro r mi st hd durs delays s0 f
    have key := run_const_plain
      { MaxRetries := (r : Int) + 2, MaxInterval := mi, MaxElapsedTime := 0 }
      (fun _ => DoResult.response { statusCode := 500, status := st, retryAfterHeader := hd })
      durs delays (fun _ => OpErr.statusErr st)
      (fun _ => some { statusCode := 500, status := st, retryAfterHeader := hd })
      (fun hc => absurd hc (lt_irrefl 0))
      (fun md calls hb =>
        runOperation_other_non2xx _ _ durs md calls
          { statusCode := 500, status := st, retryAfterHeader := hd } rfl hb
          (by show (500 : Int) ≠ 429; decide)
          (by show Int.tdiv 500 100 ≠ 4; decide)
          (by show Int.tdiv 500 100 ≠ 2; decide))
      (r + 3) (f + (r + 3)) { requests := 0, successfulDuration := s0 } 0 0 0
      (by omega) (by push_cast; ring) (by omega)
    have h1 : ((r : Int) + 2) + 1 = (r : Int) + 3 := by ring
    rw [h1] at key
    have h2 : 0 + (r + 3 - 1) = r + 2 := by omega
    rw [h2] at key
    exact key

/-- C4 witness: the classification applied to concrete 429 (with and without a
parseable Retry-After), 404, 503, and 200 responses under the default client. -/
theorem C4_outcome_classification_witness :
    ((runOperation New
        (fun _ => DoResult.response { statusCode := 429, status := "429", retryAfterHeader := "" })
        (fun _ => 0) { requests := 0, successfulDuration := 0 } 0).2.2.2 =
      OpOutcome.retryAfter 1) ∧
    ((runOperation New
        (fun _ => DoResult.response { statusCode := 429, status := "429", retryAfterHeader := "7" })
        (fun _ => 0) { requests := 0, successfulDuration := 0 } 0).2.2.2 =
      OpOutcome.retryAfter 7) ∧
    ((runOperation New
        (fun _ => DoResult.response { statusCode := 404, status := "404 Not Found", retryAfterHeader := "" })
        (fun _ => 0) { requests := 0, successfulDuration := 0 } 0).2.2.2 =
      OpOutcome.permanent (OpErr.statusErr "404 Not Found")
        (some { statusCode := 404, status := "404 Not Found", retryAfterHeader := "" })) ∧
    ((runOperation New
        (fun _ => DoResult.response { statusCode := 503, status := "503", retryAfterHeader := "" })
        (fun _ => 0) { requests := 0, successfulDuration := 0 } 0).2.2.2 =
      OpOutcome.plain (OpErr.statusErr "503")
        (some { statusCode := 503, status := "503", retryAfterHeader := "" })) ∧
    ((runOperation New
        (fun _ => DoResult.response { statusCode := 200, status := "200 OK", retryAfterHeader := "" })
        (fun _ => 0) { requests := 0, successfulDuration := 0 } 0).2.2.2 =
      OpOutcome.success { statusCode := 200, status := "200 OK", retryAfterHeader := "" }) :=
  ⟨(C4_outcome_classification.1 New _ _ _ 0 _ rfl (by decide)).1 rfl rfl,
   (C4_outcome_classification.1 New _ _ _ 0 _ rfl (by decide)).2.1 7 rfl (by decide) (by decide),
   (C4_outcome_classification.1 New _ _ _ 0 _ rfl (by decide)).2.2.1
     (by decide) (by decide) (by decide),
   (C4_outcome_classification.1 New _ _ _ 0 _ rfl (by decide)).2.2.2.1
     (by decide) (by decide) (by decide),
   (C4_outcome_classification.1 New _ _ _ 0 _ rfl (by decide)).2.2.2.2 (by decide) (by decide)⟩

/-- C6: `successfulDuration` is written only by a successful attempt.  First
conjunct: any run that does not end in success leaves it unchanged (so it stays
zero on every failure path when it started zero).  Second conjunct: a 500
answer followed by a 200 answer succeeds after 2 attempts and records exactly
the duration of the second (successful) attempt, `durs 1`, regardless of the
first attempt duration `durs 0`. -/
theorem C6_successDuration :
    (∀ (h : HttpClient) (t : Nat → DoResult) (durs delays : Nat → Int) (f : Nat)
       (md : requestMetadata) (calls boIdx : Nat) (elapsed : Int)
       (mdF : requestMetadata) (callsF : Nat) (res : RunResult),
       retryRun h t durs delays f md calls boIdx elapsed = some (mdF, callsF, res) →
       (∀ resp, res ≠ RunResult.success resp) →
       mdF.successfulDuration = md.successfulDuration) ∧
    (∀ (r : Nat) (mi : Int) (st1 hd1 st2 hd2 : String) (durs delays : Nat → Int)
       (s0 : Int) (f : Nat),
       retryRun { MaxRetries := (r : Int) + 2, MaxInterval := mi, MaxElapsedTime := 0 }
         (fun k => if k = 0
           then DoResult.response { statusCode := 500, status := st1, retryAfterHeader := hd1 }
           else DoResult.response { statusCode := 200, status := st2, retryAfterHeader := hd2 })
         durs delays (f + 2) { requests := 0, successfulDuration := s0 } 0 0 0 =
         some ({ requests := 2, successfulDuration := durs 1 }, 2,
           RunResult.success { statusCode := 200, status := st2, retryAfterHeader := hd2 })) := by
  refine ⟨retryRun_nonsuccess_duration, ?_⟩
  intro r mi st1 hd1 st2 hd2 durs delays s0 f
  have hop0 : runOperation { MaxRetries := (r : Int) + 2, MaxInterval := mi, MaxElapsedTime := 0 }
      (fun k => if k = 0
        then DoResult.response { statusCode := 500, status := st1, retryAfterHeader := hd1 }
        else DoResult.response { statusCode := 200, status := st2, retryAfterHeader := hd2 })
      durs { requests := 0, successfulDuration := s0 } 0 =
      ({ requests := 1, successfulDuration := s0 }, 1, durs 0,
       OpOutcome.plain (OpErr.statusErr st1)
         (some { statusCode := 500, status := st1, retryAfterHeader := hd1 })) :=
    runOperation_other_non2xx _ _ durs _ 0
      { statusCode := 500, status := st1, retryAfterHeader := hd1 } rfl
      (by show ¬ ((r : Int) + 2 + 1 ≤ 0 + 1); omega)
      (by show (500 : Int) ≠ 429; decide)
      (by show Int.tdiv 500 100 ≠ 4; decide)
      (by show Int.tdiv 500 100 ≠ 2; decide)
  have hop1 : runOperation { MaxRetries := (r : Int) + 2, MaxInterval := mi, MaxElapsedTime := 0 }
      (fun k => if k = 0
        then DoResult.response { statusCode := 500, status := st1, retryAfterHeader := hd1 }
        else DoResult.response { statusCode := 200, status := st2, retryAfterHeader := hd2 })
      durs { requests := 1, successfulDuration := s0 } 1 =
      ({ requests := 2, successfulDuration := durs 1 }, 2, durs 1,
       OpOutcome.success { statusCode := 200, status := st2, retryAfterHeader := hd2 }) :=
    runOperation_2xx _ _ durs _ 1
      { statusCode := 200, status := st2, retryAfterHeader := hd2 } rfl
      (by show ¬ ((r : Int) + 2 + 1 ≤ 1 + 1); omega)
      (by show (200 : Int) ≠ 429; decide)
      (by show Int.tdiv 200 100 ≠ 4; decide)
      (by show Int.tdiv 200 100 = 2; decide)
  rw [retryRun_step_plain_continue _ _ durs delays (f + 1) _ 0 0 0 _ 1 (durs 0) _ _ hop0
    (fun hc => absurd hc.1 (lt_irrefl 0))]
  rw [retryRun_step_success _ _ durs delays f _ 1 1 (0 + durs 0 + delays 0) _ 2 (durs 1) _ hop1]

/-- C6 witness: the failure-path invariant applied to a concrete failing run
that started with `successfulDuration = 7` (it is left at 7), and the
500-then-200 scenario at concrete durations (first attempt 5ns, second 6ns:
the recorded duration is 6, the second attempt only). -/
theorem C6_successDuration_witness :
    (retryRun { MaxRetries := 2, MaxInterval := 0, MaxElapsedTime := 0 }
        (fun _ => DoResult.failure "connection reset") (fun _ => 0) (fun _ => 0) 5
        { requests := 0, successfulDuration := 7 } 0 0 0 =
      some ({ requests := 3, successfulDuration := 7 }, 2, RunResult.attemptsExhausted 3)) ∧
    ({ requests := 3, successfulDuration := 7 } : requestMetadata).successfulDuration =
      ({ requests := 0, successfulDuration := 7 } : requestMetadata).successfulDuration ∧
    retryRun { MaxRetries := 2, MaxInterval := 0, MaxElapsedTime := 0 }
      (fun k => if k = 0
        then DoResult.response { statusCode := 500, status := "500", retryAfterHeader := "" }
        else DoResult.response { statusCode := 200, status := "200 OK", retryAfterHeader := "" })
      (fun k => (k : Int) + 5) (fun _ => 0) 2 { requests := 0, successfulDuration := 0 } 0 0 0 =
      some ({ requests := 2, successfulDuration := 6 }, 2,
        RunResult.success { statusCode := 200, status := "200 OK", retryAfterHeader := "" }) :=
  ⟨by decide,
   C6_successDuration.1 { MaxRetries := 2, MaxInterval := 0, MaxElapsedTime := 0 }
     (fun _ => DoResult.failure "connection reset") (fun _ => 0) (fun _ => 0) 5
     { requests := 0, successfulDuration := 7 } 0 0 0
     { requests := 3, successfulDuration := 7 } 2 (RunResult.attemptsExhausted 3)
     (by decide) (fun resp hr => RunResult.noConfusion hr),
   C6_successDuration.2 0 0 "500" "" "200 OK" "" (fun k => (k : Int) + 5) (fun _ => 0) 0 0⟩

/-- C7: a response produced alongside a permanent or transient classification
is preserved.  First conjunct: the operation returns a non-429 4xx response
together with its permanent error.  Second conjunct: the operation returns any
other non-2xx response together with its plain (transient) error.  Third
conjunct: the driver hands a 404 response to the caller with the permanent
failure.  Fourth conjunct: when the elapsed-time bound ends the run after a
transient 500, the caller receives that last 500 response with the error. -/
theorem C7_response_attached :
    (∀ (h : HttpClient) (t : Nat → DoResult) (durs : Nat → Int) (md : requestMetadata)
       (calls : Nat) (resp : Response),
       t calls = DoResult.response resp →
       ¬ h.MaxRetries + 1 ≤ md.requests + 1 →
       resp.statusCode ≠ 429 → Int.tdiv resp.statusCode 100 = 4 →
       runOperation h t durs md calls =
         ({ md with requests := md.requests + 1 }, calls + 1, durs calls,
          OpOutcome.permanent (OpErr.statusErr resp.status) (some resp))) ∧
    (∀ (h : HttpClient) (t : Nat → DoResult) (durs : Nat → Int) (md : requestMetadata)
       (calls : Nat) (resp : Response),
       t calls = DoResult.response resp →
       ¬ h.MaxRetries + 1 ≤ md.requests + 1 →
       resp.statusCode ≠ 429 → Int.tdiv resp.statusCode 100 ≠ 4 →
       Int.tdiv resp.statusCode 100 ≠ 2 →
       runOperation h t durs md calls =
         ({ md with requests := md.requests + 1 }, calls + 1, durs calls,
          OpOutcome.plain (OpErr.statusErr resp.status) (some resp))) ∧
    (∀ (r : Nat) (mi : Int) (st hd : String) (durs delays : Nat → Int) (s0 : Int) (f : Nat),
       retryRun { MaxRetries := (r : Int) + 1, MaxInterval := mi, MaxElapsedTime := 0 }
         (fun _ => DoResult.response { statusCode := 404, status := st, retryAfterHeader := hd })
         durs delays (f + 1) { requests := 0, successfulDuration := s0 } 0 0 0 =
         some ({ requests := 1, successfulDuration := s0 }, 1,
           RunResult.permFail
             (some { statusCode := 404, status := st, retryAfterHeader := hd })
             (OpErr.statusErr st))) ∧
    (∀ (mi : Int) (st hd : String) (s0 : Int) (f : Nat),
       retryRun { MaxRetries := 9, MaxInterval := mi, MaxElapsedTime := 1 }
         (fun _ => DoResult.response { statusCode := 500, status := st, retryAfterHeader := hd })
         (fun _ => 1) (fun _ => 1) (f + 1) { requests := 0, successfulDuration := s0 } 0 0 0 =
         some ({ requests := 1, successfulDuration := s0 }, 1,
           RunResult.elapsedExceeded
             (some { statusCode := 500, status := st, retryAfterHeader := hd })
             (OpErr.statusErr st))) := by
  refine ⟨?_, ?_, ?_, ?_⟩
  · intro h t durs md calls resp ht hb h429 hdiv
    exact runOperation_4xx h t durs md calls resp ht hb h429 hdiv
  · intro h t durs md calls resp ht hb h429 hdiv4 hdiv2
    exact runOperation_other_non2xx h t durs md calls resp ht hb h429 hdiv4 hdiv2
  · intro r mi st hd durs delays s0 f
    have hop : runOperation { MaxRetries := (r : Int) + 1, MaxInterval := mi, MaxElapsedTime := 0 }
        (fun _ => DoResult.response { statusCode := 404, status := st, retryAfterHeader := hd })
        durs { requests := 0, successfulDuration := s0 } 0 =
        ({ requests := 1, successfulDuration := s0 }, 1, durs 0,
         OpOutcome.permanent (OpErr.statusErr st)
           (some { statusCode := 404, status := st, retryAfterHeader := hd })) :=
      runOperation_4xx _ _ durs _ 0 { statusCode := 404, status := st, retryAfterHeader := hd }
        rfl (by show ¬ ((r : Int) + 1 + 1 ≤ 0 + 1); omega)
        (by show (404 : Int) ≠ 429; decide) (by show Int.tdiv 404 100 = 4; decide)
    rw [retryRun_step_permanent _ _ durs delays f _ 0 0 0 _ 1 (durs 0) _ _ hop]
  · intro mi st hd s0 f
    have hop : runOperation { MaxRetries := 9, MaxInterval := mi, MaxElapsedTime := 1 }
        (fun _ => DoResult.response { statusCode := 500, status := st, retryAfterHeader := hd })
        (fun _ => 1) { requests := 0, successfulDuration := s0 } 0 =
        ({ requests := 1, successfulDuration := s0 }, 1, 1,
         OpOutcome.plain (OpErr.statusErr st)
           (some { statusCode := 500, status := st, retryAfterHeader := hd })) :=
      runOperation_other_non2xx _ _ (fun _ => 1) _ 0
        { statusCode := 500, status := st, retryAfterHeader := hd } rfl
        (by show ¬ ((9 : Int) + 1 ≤ 0 + 1); omega)
        (by show (500 : Int) ≠ 429; decide)
        (by show Int.tdiv 500 100 ≠ 4; decide)
        (by show Int.tdiv 500 100 ≠ 2; decide)
    rw [retryRun_step_plain_stop _ _ (fun _ => 1) (fun _ => 1) f _ 0 0 0 _ 1 1 _ _ hop
      ⟨show (0 : Int) < 1 by decide, show (1 : Int) < 0 + 1 + 1 by decide⟩]

/-- C7 witness: a 404 and a 503 response carried through the operation under
the default client, the 404 driver run at MaxRetries 1, and the elapsed-bound
run at concrete strings. -/
theorem C7_response_attached_witness :
    (runOperation New
       (fun _ => DoResult.response { statusCode := 404, status := "404", retryAfterHeader := "" })
       (fun _ => 3) { requests := 0, successfulDuration := 0 } 0 =
     ({ requests := 1, successfulDuration := 0 }, 1, 3,
      OpOutcome.permanent (OpErr.statusErr "404")
        (some { statusCode := 404, status := "404", retryAfterHeader := "" }))) ∧
    (runOperation New
       (fun _ => DoResult.response { statusCode := 503, status := "503", retryAfterHeader := "" })
       (fun _ => 3) { requests := 0, successfulDuration := 0 } 0 =
     ({ requests := 1, successfulDuration := 0 }, 1, 3,
      OpOutcome.plain (OpErr.statusErr "503")
        (some { statusCode := 503, status := "503", retryAfterHeader := "" }))) ∧
    (retryRun { MaxRetries := 1, MaxInterval := 0, MaxElapsedTime := 0 }
       (fun _ => DoResult.response { statusCode := 404, status := "404", retryAfterHeader := "" })
       (fun _ => 0) (fun _ => 0) 1 { requests := 0, successfulDuration := 0 } 0 0 0 =
     some ({ requests := 1, successfulDuration := 0 }, 1,
       RunResult.permFail (some { statusCode := 404, status := "404", retryAfterHeader := "" })
         (OpErr.statusErr "404"))) ∧
    (retryRun { MaxRetries := 9, MaxInterval := 0, MaxElapsedTime := 1 }
       (fun _ => DoResult.response { statusCode := 500, status := "500", retryAfterHeader := "" })
       (fun _ => 1) (fun _ => 1) 1 { requests := 0, successfulDuration := 0 } 0 0 0 =
     some ({ requests := 1, successfulDuration := 0 }, 1,
       RunResult.elapsedExceeded
         (some { statusCode := 500, status := "500", retryAfterHeader := "" })
         (OpErr.statusErr "500"))) :=
  ⟨C7_response_attached.1 New _ _ _ 0
     { statusCode := 404, status := "404", retryAfterHeader := "" }
     rfl (by decide) (by decide) (by decide),
   C7_response_attached.2.1 New _ _ _ 0
     { statusCode := 503, status := "503", retryAfterHeader := "" }
     rfl (by decide) (by decide) (by decide) (by decide),
   C7_response_attached.2.2.1 0 0 "404" "" (fun _ => 0) (fun _ => 0) 0 0,
   C7_response_attached.2.2.2 0 "500" "" 0 0⟩

/-- C8: the replayable-request constructors buffer the payload bytes P and
install a body producer that, on every invocation, yields a fresh reader which
is fully rewound (cursor at 0) and reads back exactly P. -/
theorem C8_replayable_body :
    (∀ (urlOk : Bool) (method url : String) (P : List Nat) (req : GoRequest),
       NewRequest urlOk method url P = some req →
       ∀ u : Unit, req.GetBody u = some { data := P, pos := 0 } ∧
         ByteReader.readAll { data := P, pos := 0 } = P) ∧
    (∀ (urlOk : Bool) (method url : String) (P : List Nat) (req : GoRequest),
       NewRequestWithBodyBytes urlOk method url P = some req →
       ∀ u : Unit, req.GetBody u = some { data := P, pos := 0 } ∧
         ByteReader.readAll { data := P, pos := 0 } = P) := by
  constructor
  · intro urlOk method url P req hreq u
    unfold NewRequest at hreq
    by_cases hok : urlOk = true
    · rw [if_pos hok] at hreq
      injection hreq with hr
      rw [← hr]
      exact ⟨rfl, rfl⟩
    · rw [if_neg hok] at hreq
      cases hreq
  · intro urlOk method url P req hreq u
    unfold NewRequestWithBodyBytes at hreq
    by_cases hok : urlOk = true
    · rw [if_pos hok] at hreq
      injection hreq with hr
      rw [← hr]
      exact ⟨rfl, rfl⟩
    · rw [if_neg hok] at hreq
      cases hreq

/-- C8 witness: both constructors applied to the concrete payload [104, 105]. -/
theorem C8_replayable_body_witness :
    ((GoRequest.mk "POST" "u" (fun _ => some { data := [104, 105], pos := 0 })).GetBody () =
       some { data := [104, 105], pos := 0 } ∧
     ByteReader.readAll { data := [104, 105], pos := 0 } = [104, 105]) ∧
    ((GoRequest.mk "PUT" "v" (fun _ => some { data := [104, 105], pos := 0 })).GetBody () =
       some { data := [104, 105], pos := 0 } ∧
     ByteReader.readAll { data := [104, 105], pos := 0 } = [104, 105]) :=
  ⟨C8_replayable_body.1 true "POST" "u" [104, 105]
     (GoRequest.mk "POST" "u" (fun _ => some { data := [104, 105], pos := 0 })) rfl (),
   C8_replayable_body.2 true "PUT" "v" [104, 105]
     (GoRequest.mk "PUT" "v" (fun _ => some { data := [104, 105], pos := 0 })) rfl ()⟩

/-- C9: a carrier never associated with metadata degrades gracefully.  The run
of DoWithContext on the bare carrier equals the run on a freshly seeded
carrier (a throwaway record is allocated, execution is unchanged); the carrier
stays bare afterwards; and both accessors answer absent (present = false with
zero value) before and after the call. -/
theorem C9_naked_context (h : HttpClient) (transport : Nat → DoResult)
    (durs delays : Nat → Int) (fuel : Nat) :
    (DoWithContext h transport durs delays fuel none).2 =
      (DoWithContext h transport durs delays fuel NewContext).2 ∧
    (DoWithContext h transport durs delays fuel none).1 = none ∧
    NumberOfAttemptsFromContext none = (0, false) ∧
    SuccessfulRequestDurationFromContext none = (0, false) ∧
    NumberOfAttemptsFromContext (DoWithContext h transport durs delays fuel none).1 =
      (0, false) ∧
    SuccessfulRequestDurationFromContext (DoWithContext h transport durs delays fuel none).1 =
      (0, false) :=
  ⟨rfl, rfl, rfl, rfl, rfl, rfl⟩

/-- C10: DoWithContext resets the attempt counter of the carried record to 0
at the start of every call but never resets the recorded success duration.
First conjunct: the run is independent of the incoming counter value.  Second
conjunct: reusing one carrier for a successful call (duration `durs1 0`) and
then a failing call leaves the duration of the first call readable while the
attempts counter reflects only the second call. -/
theorem C10_carrier_reuse :
    (∀ (h : HttpClient) (t : Nat → DoResult) (durs delays : Nat → Int) (fuel : Nat) (q s : Int),
       (DoWithContext h t durs delays fuel
          (some { requests := q, successfulDuration := s })).2 =
       (DoWithContext h t durs delays fuel
          (some { requests := 0, successfulDuration := s })).2) ∧
    (∀ (r : Nat) (mi : Int) (st hd : String) (durs1 durs2 delays1 delays2 : Nat → Int)
       (q s : Int) (f1 f2 : Nat),
       SuccessfulRequestDurationFromContext
         ((DoWithContext { MaxRetries := (r : Int) + 1, MaxInterval := mi, MaxElapsedTime := 0 }
             (fun _ => DoResult.failure "connection reset by peer") durs2 delays2
             (f2 + (r + 2))
             ((DoWithContext { MaxRetries := (r : Int) + 1, MaxInterval := mi, MaxElapsedTime := 0 }
                 (fun _ => DoResult.response
                   { statusCode := 200, status := st, retryAfterHeader := hd })
                 durs1 delays1 (f1 + 1)
                 (some { requests := q, successfulDuration := s })).1)).1) =
         (durs1 0, true) ∧
       NumberOfAttemptsFromContext
         ((DoWithContext { MaxRetries := (r : Int) + 1, MaxInterval := mi, MaxElapsedTime := 0 }
             (fun _ => DoResult.failure "connection reset by peer") durs2 delays2
             (f2 + (r + 2))
             ((DoWithContext { MaxRetries := (r : Int) + 1, MaxInterval := mi, MaxElapsedTime := 0 }
                 (fun _ => DoResult.response
                   { statusCode := 200, status := st, retryAfterHeader := hd })
                 durs1 delays1 (f1 + 1)
                 (some { requests := q, successfulDuration := s })).1)).1) =
         ((r : Int) + 2, true)) := by
  constructor
  · intro h t durs delays fuel q s
    rfl
  · intro r mi st hd durs1 durs2 delays1 delays2 q s f1 f2
    have hop1 : runOperation { MaxRetries := (r : Int) + 1, MaxInterval := mi, MaxElapsedTime := 0 }
        (fun _ => DoResult.response { statusCode := 200, status := st, retryAfterHeader := hd })
        durs1 { requests := 0, successfulDuration := s } 0 =
        ({ requests := 1, successfulDuration := durs1 0 }, 1, durs1 0,
         OpOutcome.success { statusCode := 200, status := st, retryAfterHeader := hd }) :=
      runOperation_2xx _ _ durs1 _ 0
        { statusCode := 200, status := st, retryAfterHeader := hd } rfl
        (by show ¬ ((r : Int) + 1 + 1 ≤ 0 + 1); omega)
        (by show (200 : Int) ≠ 429; decide)
        (by show Int.tdiv 200 100 ≠ 4; decide)
        (by show Int.tdiv 200 100 = 2; decide)
    have hrun1 : (DoWithContext
        { MaxRetries := (r : Int) + 1, MaxInterval := mi, MaxElapsedTime := 0 }
        (fun _ => DoResult.response { statusCode := 200, status := st, retryAfterHeader := hd })
        durs1 delays1 (f1 + 1) (some { requests := q, successfulDuration := s })).1 =
        some { requests := 1, successfulDuration := durs1 0 } := by
      simp only [DoWithContext, metadataOf_some]
      rw [retryRun_step_success _ _ durs1 delays1 f1 _ 0 0 0 _ 1 (durs1 0) _ hop1]
      rfl
    rw [hrun1]
    have key := run_const_plain
      { MaxRetries := (r : Int) + 1, MaxInterval := mi, MaxElapsedTime := 0 }
      (fun _ => DoResult.failure "connection reset by peer") durs2 delays2
      (fun _ => OpErr.transportErr "connection reset by peer") (fun _ => none)
      (fun hc => absurd hc (lt_irrefl 0))
      (fun md calls hb =>
        runOperation_transport_plain _ _ durs2 md calls "connection reset by peer" rfl hb
          (by decide))
      (r + 2) (f2 + (r + 2)) { requests := 0, successfulDuration := durs1 0 } 0 0 0
      (by omega) (by push_cast; ring) (by omega)
    have h1 : ((r : Int) + 1) + 1 = (r : Int) + 2 := by ring
    rw [h1] at key
    have h2 : 0 + (r + 2 - 1) = r + 1 := by omega
    rw [h2] at key
    have hrun2 : (DoWithContext
        { MaxRetries := (r : Int) + 1, MaxInterval := mi, MaxElapsedTime := 0 }
        (fun _ => DoResult.failure "connection reset by peer") durs2 delays2
        (f2 + (r + 2)) (some { requests := 1, successfulDuration := durs1 0 })).1 =
        some { requests := (r : Int) + 2, successfulDuration := durs1 0 } := by
      simp only [DoWithContext, metadataOf_some]
      rw [key]
      rfl
    rw [hrun2]
    exact ⟨rfl, rfl⟩
